import Mathlib

set_option autoImplicit false

/-!
Shallow embedding of the market-data ingestion core of the Data-Craw
repository (Python sources under `src/`), together with proofs of the
specification claims.

The embedding covers:
* the relational upsert used by `insert_to_postgres`
  (`src/dags/stock_data_pipeline.py`) and `load_and_insert_data`
  (`src/utils/fix_data_transfer.py`): `INSERT ... ON CONFLICT ... DO UPDATE`
  against a table with a unique key, modelled as an association list;
* the pipeline orchestration (`crawl_stock_data` / `insert_to_postgres`):
  MinIO staging, empty-fetch handling, per-unit transactions and rollback,
  including `execute_values` rejecting the DAG's multi-placeholder query,
  and the per-file body of the `load_and_insert_data` transfer utility;
* the crawler (`src/crawlers/stock_crawler.py`): the synthetic ("mock")
  data generators, the indicator engine `_add_basic_indicators`, the
  `get_historical_data` dispatch (including the unresolved `np` name),
  and the `get_daily_data` Yahoo branch (unresolved `yf` name);
* the indicator engine: rolling means (SMA), percent changes and the
  10-sample rolling standard deviation, over exact rationals.

Numbers are modelled as rationals (`ℚ`); timestamps as integers
(minutes since an epoch).  Python exceptions are modelled with `Except`.
-/

namespace DataCraw

/-! ### Relational tables and the upsert

A Postgres table with a unique key constraint is modelled as an
association list from keys to the tuple of non-key column values.
`upsert1` is the effect of one `INSERT ... ON CONFLICT (key) DO UPDATE SET
<non-key cols> = EXCLUDED.<non-key cols>` row; `upsertAll` executes a batch
row by row in order, as `psycopg2.extras.execute_batch` genuinely does in
`load_and_insert_data`.  (The DAG's `insert_to_postgres` instead calls
`extras.execute_values`, which rejects its multi-placeholder query before
any SQL runs — see `execute_values` below.) -/

/-- Key of the versioned table `stock_data_v2`: (symbol, timestamp, timeframe). -/
abbrev KeyV2 := String × Int × String

/-- Key of the legacy table `stock_data`: (symbol, timestamp). -/
abbrev KeyV1 := String × Int

/-- A relational table with key type `κ` and non-key payload `α`. -/
abbrev Table (κ : Type) (α : Type) := List (κ × α)

variable {κ : Type} [DecidableEq κ] {α : Type}

/-- The list of key values appearing in a table, in row order. -/
def keys (t : Table κ α) : List κ := t.map Prod.fst

/-- One row of `INSERT ... ON CONFLICT DO UPDATE`: if the key is already
present, every row carrying it has its non-key columns overwritten with the
new values; otherwise the row is appended. -/
def upsert1 (k : κ) (v : α) (t : Table κ α) : Table κ α :=
  if k ∈ keys t then t.map (fun e => if e.1 = k then (k, v) else e)
  else t ++ [(k, v)]

/-- A batch upsert: the rows are applied in order. -/
def upsertAll (rows : Table κ α) (t : Table κ α) : Table κ α :=
  rows.foldl (fun acc e => upsert1 e.1 e.2 acc) t

theorem upsertAll_nil (t : Table κ α) : upsertAll [] t = t := rfl

theorem upsertAll_cons (r : κ × α) (rs : Table κ α) (t : Table κ α) :
    upsertAll (r :: rs) t = upsertAll rs (upsert1 r.1 r.2 t) := rfl

theorem keys_upsert1_of_mem {k : κ} (v : α) {t : Table κ α} (h : k ∈ keys t) :
    keys (upsert1 k v t) = keys t := by
  unfold upsert1
  rw [if_pos h]
  unfold keys
  rw [List.map_map]
  apply List.map_congr_left
  intro e _
  by_cases hek : e.1 = k
  · simp only [Function.comp_apply, if_pos hek]
    exact hek.symm
  · simp only [Function.comp_apply, if_neg hek]

theorem keys_upsert1_of_not_mem {k : κ} (v : α) {t : Table κ α} (h : k ∉ keys t) :
    keys (upsert1 k v t) = keys t ++ [k] := by
  unfold upsert1
  rw [if_neg h]
  unfold keys
  rw [List.map_append]
  rfl

theorem mem_keys_upsert1 {k' k : κ} {v : α} {t : Table κ α} :
    k' ∈ keys (upsert1 k v t) ↔ k' = k ∨ k' ∈ keys t := by
  by_cases hk : k ∈ keys t
  · rw [keys_upsert1_of_mem v hk]
    constructor
    · exact Or.inr
    · rintro (h | h)
      · exact h ▸ hk
      · exact h
  · rw [keys_upsert1_of_not_mem v hk]
    rw [List.mem_append, List.mem_singleton]
    exact or_comm

/-- The unique-key constraint is preserved by a single upsert. -/
theorem keys_nodup_upsert1 {k : κ} {v : α} {t : Table κ α}
    (h : (keys t).Nodup) : (keys (upsert1 k v t)).Nodup := by
  by_cases hk : k ∈ keys t
  · rw [keys_upsert1_of_mem v hk]; exact h
  · rw [keys_upsert1_of_not_mem v hk]
    exact List.Nodup.append h (List.nodup_singleton k) (by simpa using hk)

/-- The unique-key constraint is preserved by a batch upsert. -/
theorem keys_nodup_upsertAll {rows : Table κ α} {t : Table κ α}
    (h : (keys t).Nodup) : (keys (upsertAll rows t)).Nodup := by
  induction rows generalizing t with
  | nil => exact h
  | cons r rs ih => exact ih (keys_nodup_upsert1 h)

theorem entry_upsert1_self {k : κ} {v : α} {t : Table κ α} {e : κ × α}
    (he : e ∈ upsert1 k v t) (hk : e.1 = k) : e = (k, v) := by
  unfold upsert1 at he
  split at he
  · rcases List.mem_map.mp he with ⟨e', he', heq⟩
    by_cases h' : e'.1 = k
    · rw [if_pos h'] at heq; exact heq.symm
    · rw [if_neg h'] at heq; subst heq; exact absurd hk h'
  · rename_i hmem
    rcases List.mem_append.mp he with h | h
    · exact absurd (hk ▸ List.mem_map.mpr ⟨e, h, rfl⟩) hmem
    · simpa using h

theorem entry_upsert1_ne {k' k : κ} {v : α} {t : Table κ α} {e : κ × α}
    (hne : k' ≠ k) :
    (e ∈ upsert1 k v t ∧ e.1 = k') ↔ (e ∈ t ∧ e.1 = k') := by
  unfold upsert1
  split
  · constructor
    · rintro ⟨he, hk⟩
      rcases List.mem_map.mp he with ⟨e', he', heq⟩
      by_cases h' : e'.1 = k
      · rw [if_pos h'] at heq
        rw [← heq] at hk
        exact absurd hk.symm hne
      · rw [if_neg h'] at heq
        exact ⟨heq ▸ he', hk⟩
    · rintro ⟨he, hk⟩
      refine ⟨List.mem_map.mpr ⟨e, he, ?_⟩, hk⟩
      have : e.1 ≠ k := by rw [hk]; exact hne
      rw [if_neg this]
  · constructor
    · rintro ⟨he, hk⟩
      rcases List.mem_append.mp he with h | h
      · exact ⟨h, hk⟩
      · simp only [List.mem_singleton] at h
        rw [h] at hk
        exact absurd hk.symm hne
    · rintro ⟨he, hk⟩
      exact ⟨List.mem_append.mpr (Or.inl he), hk⟩

theorem mem_keys_upsertAll_of_mem {rows : Table κ α} {t : Table κ α} {k : κ}
    (h : k ∈ keys t) : k ∈ keys (upsertAll rows t) := by
  induction rows generalizing t with
  | nil => exact h
  | cons r rs ih => exact ih (mem_keys_upsert1.mpr (Or.inr h))

/-- Every key of a batch occurs in the table after the batch upsert. -/
theorem mem_keys_upsertAll_of_mem_rows {rows : Table κ α} {t : Table κ α} {k : κ}
    (h : k ∈ keys rows) : k ∈ keys (upsertAll rows t) := by
  induction rows generalizing t with
  | nil => cases h
  | cons r rs ih =>
      rcases List.mem_cons.mp h with h | h
      · rw [upsertAll_cons]
        exact mem_keys_upsertAll_of_mem (mem_keys_upsert1.mpr (Or.inl h))
      · rw [upsertAll_cons]
        exact ih h

/-- Entries whose key occurs in none of the batch rows are untouched by the
batch upsert. -/
theorem entry_upsertAll_ne {rows : Table κ α} {t : Table κ α} {k : κ} {e : κ × α}
    (hne : ∀ r ∈ rows, r.1 ≠ k) :
    (e ∈ upsertAll rows t ∧ e.1 = k) ↔ (e ∈ t ∧ e.1 = k) := by
  induction rows generalizing t with
  | nil => exact Iff.rfl
  | cons r rs ih =>
      rw [upsertAll_cons]
      rw [ih (fun r' hr' => hne r' (List.mem_cons_of_mem r hr'))]
      exact entry_upsert1_ne (fun h => hne r (List.mem_cons_self r rs) h.symm)

/-- `t` absorbs `rows` when every batch row is already present in the table
verbatim: its key occurs, and every table entry with that key equals the
batch row. -/
def Absorbs (t : Table κ α) (rows : Table κ α) : Prop :=
  ∀ r ∈ rows, r.1 ∈ keys t ∧ ∀ e ∈ t, e.1 = r.1 → e = r

theorem upsert1_absorbed {k : κ} {v : α} {t : Table κ α}
    (hmem : k ∈ keys t) (hall : ∀ e ∈ t, e.1 = k → e = (k, v)) :
    upsert1 k v t = t := by
  unfold upsert1
  rw [if_pos hmem]
  conv_rhs => rw [← List.map_id t]
  apply List.map_congr_left
  intro e he
  simp only [id]
  by_cases hek : e.1 = k
  · rw [if_pos hek]
    exact (hall e he hek).symm
  · rw [if_neg hek]

/-- A batch already absorbed by the table is a no-op. -/
theorem upsertAll_absorbed {t : Table κ α} {rows : Table κ α}
    (h : Absorbs t rows) : upsertAll rows t = t := by
  induction rows with
  | nil => rfl
  | cons r rs ih =>
      rw [upsertAll_cons]
      obtain ⟨hmem, hall⟩ := h r (List.mem_cons_self r rs)
      have hr : upsert1 r.1 r.2 t = t :=
        upsert1_absorbed hmem (fun e he hk => hall e he hk)
      rw [hr]
      exact ih (fun r' hr' => h r' (List.mem_cons_of_mem r hr'))

/-- After a batch upsert with pairwise distinct keys, the table absorbs the
batch: every batch row sits in the table verbatim. -/
theorem absorbs_upsertAll {rows : Table κ α} (t : Table κ α)
    (hnd : (keys rows).Nodup) : Absorbs (upsertAll rows t) rows := by
  induction rows generalizing t with
  | nil => intro r hr; cases hr
  | cons r rs ih =>
      have hnd0 : (r.1 :: keys rs).Nodup := hnd
      have hnot : r.1 ∉ keys rs := (List.nodup_cons.mp hnd0).1
      have hnd' : (keys rs).Nodup := (List.nodup_cons.mp hnd0).2
      intro r' hr'
      rcases List.mem_cons.mp hr' with h | h
      · subst h
        rw [upsertAll_cons]
        constructor
        · exact mem_keys_upsertAll_of_mem (mem_keys_upsert1.mpr (Or.inl rfl))
        · intro e he hk
          have hne : ∀ s ∈ rs, s.1 ≠ r'.1 := by
            intro s hs hcontra
            exact hnot (hcontra ▸ List.mem_map.mpr ⟨s, hs, rfl⟩)
          have hmem := (entry_upsertAll_ne hne).mp ⟨he, hk⟩
          have he' := entry_upsert1_self hmem.1 hmem.2
          simpa using he'
      · rw [upsertAll_cons]
        exact ih (upsert1 r.1 r.2 t) hnd' r' h

/-- Re-upserting a batch with pairwise distinct keys is a no-op. -/
theorem upsertAll_idem {rows : Table κ α} {t : Table κ α}
    (hnd : (keys rows).Nodup) :
    upsertAll rows (upsertAll rows t) = upsertAll rows t :=
  upsertAll_absorbed (absorbs_upsertAll t hnd)

/-! ### Python-level oddments: exceptions and `str.replace` -/

/-- Python exceptions that the modelled code can raise. -/
inductive PyErr where
  | nameError (n : String)
  | keyError (k : String)
  | valueError (msg : String)
  | other (msg : String)
deriving DecidableEq

/-- Python `str.replace` on character lists, fuelled so the recursion is
structural (the fuel bounds the number of scanning steps; each step
consumes at least one character, so `fuel = length` suffices): replace
every non-overlapping occurrence of `pat`, scanning left to right. -/
def replaceFuel (pat rep : List Char) : Nat → List Char → List Char
  | 0, l => l
  | _ + 1, [] => []
  | fuel + 1, c :: cs =>
      if pat ≠ [] ∧ pat.isPrefixOf (c :: cs) then
        rep ++ replaceFuel pat rep fuel (cs.drop (pat.length - 1))
      else
        c :: replaceFuel pat rep fuel cs

/-- Python `str.replace` on character lists. -/
def replaceList (pat rep : List Char) (s : List Char) : List Char :=
  replaceFuel pat rep s.length s

/-- Python `s.replace(pat, rep)`. -/
def pyReplace (s pat rep : String) : String :=
  ⟨replaceList pat.toList rep.toList s.toList⟩

theorem isPrefixOf_append (l t : List Char) : l.isPrefixOf (l ++ t) = true := by
  induction l with
  | nil => simp [List.isPrefixOf]
  | cons c cs ih => simp [List.isPrefixOf, ih]

/-- The fuel is irrelevant once it covers the length of the scanned list. -/
theorem replaceFuel_congr (pat rep : List Char) :
    ∀ (f1 f2 : Nat) (l : List Char), l.length ≤ f1 → l.length ≤ f2 →
      replaceFuel pat rep f1 l = replaceFuel pat rep f2 l := by
  intro f1
  induction f1 with
  | zero =>
      intro f2 l h1 _
      have : l = [] := List.eq_nil_of_length_eq_zero (Nat.le_zero.mp h1)
      subst this
      cases f2 <;> rfl
  | succ f ih =>
      intro f2 l h1 h2
      match l, f2 with
      | [], g => cases g <;> rfl
      | c :: cs, 0 => simp at h2
      | c :: cs, g + 1 =>
          simp only [replaceFuel]
          split
          · rename_i hcond
            have hlen : (cs.drop (pat.length - 1)).length ≤ f := by
              have := List.length_drop (pat.length - 1) cs
              simp only [List.length_cons] at h1
              omega
            have hlen2 : (cs.drop (pat.length - 1)).length ≤ g := by
              have := List.length_drop (pat.length - 1) cs
              simp only [List.length_cons] at h2
              omega
            rw [ih g _ hlen hlen2]
          · have hlen : cs.length ≤ f := by
              simp only [List.length_cons] at h1; omega
            have hlen2 : cs.length ≤ g := by
              simp only [List.length_cons] at h2; omega
            rw [ih g _ hlen hlen2]

/-- Deleting the pattern from `pat ++ s` first deletes the leading copy. -/
theorem replaceList_append_self {pat : List Char} (hp : pat ≠ []) (s : List Char) :
    replaceList pat [] (pat ++ s) = replaceList pat [] s := by
  match pat, hp with
  | c :: cs, _ =>
      show replaceFuel (c :: cs) [] (c :: (cs ++ s)).length (c :: (cs ++ s)) = _
      have hl : (c :: (cs ++ s)).length = (cs ++ s).length + 1 := List.length_cons _ _
      rw [hl]
      rw [replaceFuel]
      have h2 : (c :: cs).isPrefixOf (c :: (cs ++ s)) = true := isPrefixOf_append (c :: cs) s
      rw [if_pos (⟨List.cons_ne_nil c cs, h2⟩ : _ ∧ _)]
      have hdrop : (cs ++ s).drop ((c :: cs).length - 1) = s := by
        rw [List.length_cons, Nat.add_sub_cancel]
        exact List.drop_left cs s
      rw [hdrop, List.nil_append]
      unfold replaceList
      apply replaceFuel_congr
      · simp
      · exact le_rfl

/-! ### Pipeline orchestration (`src/dags/stock_data_pipeline.py`)

`crawl_stock_data` fetches a frame via `crawler.get_historical_data`,
and — unless the frame is empty — stages it as a CSV object in MinIO and
returns a result dictionary.  `insert_to_postgres` pulls that result from
XCom, reads the CSV back from MinIO and batch-upserts it into
`stock_data_v2`.  The fetched frame is passed in explicitly here; the
crawler itself is modelled separately below. -/

/-- The dictionary `crawl_stock_data` returns on success.  Note that it has
fields `symbol`, `timeframe`, `file_path`, `row_count`, `execution_date`
and nothing else — in particular, no `status` field. -/
structure CrawlResult where
  symbol : String
  timeframe : String
  file_path : String
  row_count : Nat
  execution_date : String
deriving DecidableEq

/-- A data frame staged by the pipeline: rows keyed by
(symbol, timestamp, timeframe) with payload `α` (the remaining columns:
OHLCV and whatever indicator columns the crawl produced). -/
abbrev Frame (α : Type) := Table KeyV2 α

/-- The MinIO object store: object key ↦ the frame encoded by the stored
CSV.  `put_object` on an existing key overwrites silently. -/
abbrev MinioState (α : Type) := List (String × Frame α)

def minioPut {α : Type} (st : MinioState α) (k : String) (df : Frame α) :
    MinioState α := (k, df) :: st

def minioGet {α : Type} (st : MinioState α) (k : String) : Option (Frame α) :=
  (st.find? (fun e => e.1 == k)).map (fun e => e.2)

theorem minioGet_put {α : Type} (st : MinioState α) (k : String) (df : Frame α) :
    minioGet (minioPut st k df) k = some df := by
  simp [minioGet, minioPut, List.find?]

/-- `crawl_stock_data(symbol, timeframe_key)` given the frame fetched by
`crawler.get_historical_data`: on an empty frame it logs a warning and
returns `None` before any storage access; otherwise it writes the CSV to
MinIO under `{symbol}/{timeframe_key}/{execution_date}.csv` and returns the
result dictionary. -/
def crawl_stock_data {α : Type} (symbol timeframe_key execution_date : String)
    (df : Frame α) (minio : MinioState α) : Option CrawlResult × MinioState α :=
  if df.isEmpty then (none, minio)
  else
    let object_key := symbol ++ "/" ++ timeframe_key ++ "/" ++ execution_date ++ ".csv"
    (some { symbol := symbol
            timeframe := timeframe_key
            file_path := "s3://stock-data/" ++ object_key
            row_count := df.length
            execution_date := execution_date },
     minioPut minio object_key df)

/-- The two Postgres tables. -/
structure PgState (α : Type) where
  stock_data : Table KeyV1 α
  stock_data_v2 : Table KeyV2 α
deriving DecidableEq

/-- `psycopg2.extras.execute_values(cursor, query, tuples)`: the query must
contain exactly one `%s` placeholder (the VALUES template is substituted
there); its `_split_sql` raises
`ValueError("the query contains more than one '%s' placeholder")` as soon
as it sees a second one, before any SQL reaches the database.  When the
query is well-formed the batch is applied row by row.  The DAG builds its
query with `', '.join(['%s'] * len(columns))` — one placeholder per
column — so the well-formed branch is unreachable from
`insert_to_postgres`. -/
def execute_values {α : Type} (placeholder_count : Nat) (df : Frame α)
    (t : Table KeyV2 α) : Except PyErr (Table KeyV2 α) :=
  if placeholder_count = 1 then .ok (upsertAll df t)
  else .error (.valueError "the query contains more than one placeholder")

/-- The number of `%s` placeholders in the DAG's dynamic insert query: one
per selected column.  A staged frame always carries the eight base columns
(symbol, timestamp, timeframe, open, high, low, close, volume);
`extra_columns` counts whatever indicator columns it carries on top. -/
def dagColumnCount (extra_columns : Nat) : Nat := 8 + extra_columns

/-- `insert_to_postgres(symbol, timeframe_key)` given the XCom crawl result.
`.error` models a Python exception propagating out of the task (the outer
`except` logs and re-raises); on every raising path nothing has been
committed, so the caller keeps the unchanged state.  The batch insert is
`extras.execute_values` on a query with one `%s` per column
(`dagColumnCount extra_columns` of them): it raises `ValueError` before
executing, and the inner `except` logs, calls `conn.rollback()` and does
*not* re-raise — so the commit branch, present in the code, is never
reached.  Only `stock_data_v2` appears in this function; the legacy
`stock_data` table does not. -/
def insert_to_postgres {α : Type} (crawl_result : Option CrawlResult)
    (minio : MinioState α) (extra_columns : Nat) (pg : PgState α) :
    Except PyErr (PgState α) :=
  match crawl_result with
  | none => .ok pg
  | some r =>
      match minioGet minio (pyReplace r.file_path "s3://stock-data/" "") with
      | none => .error (.keyError r.file_path)
      | some df =>
          match execute_values (dagColumnCount extra_columns) df pg.stock_data_v2 with
          | .ok t2 => .ok { pg with stock_data_v2 := t2 }
          | .error _ => .ok pg

/-- One ingestion unit end to end: crawl (fetch already resolved to `df`),
stage, then insert. -/
def ingestUnit {α : Type} (symbol timeframe_key execution_date : String)
    (df : Frame α) (minio : MinioState α) (extra_columns : Nat)
    (pg : PgState α) :
    Option CrawlResult × MinioState α × Except PyErr (PgState α) :=
  let step := crawl_stock_data symbol timeframe_key execution_date df minio
  (step.1, step.2, insert_to_postgres step.1 step.2 extra_columns pg)

/-- Run one insert task against the shared database; a task that raises
leaves the database unchanged (nothing was committed) and the scheduler
carries on with the remaining tasks. -/
def runInsert {α : Type} (minio : MinioState α) (pg : PgState α)
    (u : Option CrawlResult × Nat) : PgState α :=
  match insert_to_postgres u.1 minio u.2 pg with
  | .ok pg' => pg'
  | .error _ => pg

theorem runInsert_eq_ok {α : Type} {minio : MinioState α} {pg pg' : PgState α}
    {u : Option CrawlResult × Nat}
    (h : insert_to_postgres u.1 minio u.2 pg = .ok pg') :
    runInsert minio pg u = pg' := by
  unfold runInsert
  rw [h]

/-- A sequentially consistent schedule of independent insert tasks over the
shared database, one per work unit (crawl result, column count of its
staged frame). -/
def processUnits {α : Type} (units : List (Option CrawlResult × Nat))
    (minio : MinioState α) (pg : PgState α) : PgState α :=
  units.foldl (runInsert minio) pg

theorem processUnits_append {α : Type} (us vs : List (Option CrawlResult × Nat))
    (minio : MinioState α) (pg : PgState α) :
    processUnits (us ++ vs) minio pg = processUnits vs minio (processUnits us minio pg) := by
  simp [processUnits, List.foldl_append]

theorem execute_values_multi {α : Type} {n : Nat} (hn : n ≠ 1) (df : Frame α)
    (t : Table KeyV2 α) :
    execute_values n df t
      = .error (.valueError "the query contains more than one placeholder") := by
  unfold execute_values
  rw [if_neg hn]

/-- An insert task that finds its staged object always returns normally
with the database unchanged: `execute_values` raises on the
multi-placeholder query, the inner `except` catches it and rolls back. -/
theorem insert_to_postgres_rolls_back {α : Type} (r : CrawlResult)
    (minio : MinioState α) (extra_columns : Nat) (pg : PgState α)
    (hobj : minioGet minio (pyReplace r.file_path "s3://stock-data/" "") ≠ none) :
    insert_to_postgres (some r) minio extra_columns pg = .ok pg := by
  cases hm : minioGet minio (pyReplace r.file_path "s3://stock-data/" "") with
  | none => exact absurd hm hobj
  | some df =>
      have hev := execute_values_multi
        (show dagColumnCount extra_columns ≠ 1 by unfold dagColumnCount; omega)
        df pg.stock_data_v2
      simp [insert_to_postgres, hm, hev]

/-- No insert task ever changes the database. -/
theorem runInsert_const {α : Type} (minio : MinioState α) (pg : PgState α)
    (u : Option CrawlResult × Nat) : runInsert minio pg u = pg := by
  match u with
  | (none, e) => rfl
  | (some r, e) =>
      cases h : minioGet minio (pyReplace r.file_path "s3://stock-data/" "") with
      | none => simp [runInsert, insert_to_postgres, h]
      | some df =>
          have hev := execute_values_multi
            (show dagColumnCount e ≠ 1 by unfold dagColumnCount; omega)
            df pg.stock_data_v2
          simp [runInsert, insert_to_postgres, h, hev]

/-! ### The crawler (`src/crawlers/stock_crawler.py`)

The ambient Python runtime: the global `random` module generator
(`random.seed` / `random.uniform`), the process-salted `hash` builtin,
and numpy's sine (had `np` been importable).  The generator state is an
integer token threaded explicitly; `seedFn` is `random.seed`, which
replaces the ambient state outright. -/

structure PyRuntime where
  seedFn : Int → Int
  uniform : ℚ → ℚ → Int → ℚ × Int
  hash : String → Int
  sin : ℚ → ℚ

/-- A concrete runtime instance used for closed witnesses and
counterexamples. -/
def simpleRuntime : PyRuntime where
  seedFn n := n
  uniform a b s := ((a + b) / 2, s + 1)
  hash s := s.length
  sin _ := 0

/-- One OHLCV row of the intraday mock frame: timestamps are integer
minutes since an epoch. -/
structure Row where
  symbol : String
  timestamp : Int
  open_ : ℚ
  high : ℚ
  low : ℚ
  close : ℚ
  volume : Int
deriving DecidableEq, Inhabited

/-- One row of a historical frame (`get_historical_data` and the mock
historical generator): additionally carries the timeframe. -/
structure HRow where
  symbol : String
  timestamp : Int
  timeframe : String
  open_ : ℚ
  high : ℚ
  low : ℚ
  close : ℚ
  volume : Int
deriving DecidableEq, Inhabited

/-- A raw row as returned by `yfinance`'s `ticker.history` before the
renaming / column selection. -/
structure RawRow where
  timestamp : Int
  open_ : ℚ
  high : ℚ
  low : ℚ
  close : ℚ
  volume : Int
deriving DecidableEq, Inhabited

/-- `base_price`: 150 for AAPL, else 100, then overridden by the
`elif` chain for the named symbols. -/
def basePrice (symbol : String) : ℚ :=
  let base : ℚ := if symbol = "AAPL" then 150 else 100
  if symbol = "MSFT" then 300
  else if symbol = "GOOG" then 2500
  else if symbol = "AMZN" then 120
  else if symbol = "META" then 450
  else if symbol = "TSLA" then 200
  else base

/-- Minutes between consecutive mock intraday points: the
`1min`/`5min`/`15min`/`30min` branches, with everything else treated as
60 minutes. -/
def intervalMinutes (interval : String) : Int :=
  if interval = "1min" then 1
  else if interval = "5min" then 5
  else if interval = "15min" then 15
  else if interval = "30min" then 30
  else 60

/-- `datetime.hour` of a minutes-since-epoch timestamp (floor division, as
Python's). -/
def hourOf (t : Int) : Int := (t.ediv 60).emod 24

/-- One iteration of the `_get_mock_data` loop: the timestamp is derived
from the wall clock `now`; the generator is reseeded from
`i + hash(symbol)`, discarding the ambient generator state `_s`; then the
row's randomness is drawn. -/
def mockPoint (rt : PyRuntime) (symbol interval : String) (now : Int)
    (i : Nat) (_s : Int) : Row × Int :=
  let timestamp := now - (i : Int) * intervalMinutes interval
  let st := rt.seedFn ((i : Int) + rt.hash symbol)
  let daily_cycle : ℚ := 5 * ((hourOf timestamp : ℚ) / 24)
  let (randomness, st) := rt.uniform (-2) 2 st
  let close := basePrice symbol + daily_cycle + randomness
  let (u1, st) := rt.uniform (-1) 1 st
  let open_ := close - u1
  let (u2, st) := rt.uniform (1/10) 1 st
  let high := max open_ close + u2
  let (u3, st) := rt.uniform (1/10) 1 st
  let low := min open_ close - u3
  let (u4, st) := rt.uniform 1000000 5000000 st
  ({ symbol := symbol, timestamp := timestamp, open_ := open_, high := high,
     low := low, close := close, volume := u4.floor }, st)

/-- The row-generation loop of `_get_mock_data` over a list of indices,
threading the ambient generator state and appending rows in generation
order. -/
def mockLoop (rt : PyRuntime) (symbol interval : String) (now : Int) :
    List Nat → Int → List Row × Int
  | [], s => ([], s)
  | i :: is, s =>
      let step := mockPoint rt symbol interval now i s
      let rest := mockLoop rt symbol interval now is step.2
      (step.1 :: rest.1, rest.2)

/-- `_get_mock_data(symbol, interval)`: 100 points generated for
`i = 0, …, 99`, each timestamped `now - i·Δ`. -/
def mockData (rt : PyRuntime) (symbol interval : String) (now : Int)
    (s0 : Int) : List Row × Int :=
  mockLoop rt symbol interval now (List.range 100) s0

/-- The row produced for index `i` does not depend on the incoming
generator state: `random.seed(i + hash(symbol))` replaces it before any
draw. -/
theorem mockPoint_state_irrelevant (rt : PyRuntime) (symbol interval : String)
    (now : Int) (i : Nat) (s s' : Int) :
    mockPoint rt symbol interval now i s = mockPoint rt symbol interval now i s' := rfl

theorem mockLoop_fst (rt : PyRuntime) (symbol interval : String) (now : Int)
    (is : List Nat) (s : Int) :
    (mockLoop rt symbol interval now is s).1 =
      is.map (fun i => (mockPoint rt symbol interval now i 0).1) := by
  induction is generalizing s with
  | nil => rfl
  | cons i is ih =>
      simp only [mockLoop, List.map_cons]
      rw [ih, mockPoint_state_irrelevant rt symbol interval now i s 0]

/-- The mock frame as a pure function of (index, symbol, interval, clock). -/
theorem mockData_fst (rt : PyRuntime) (symbol interval : String) (now : Int)
    (s0 : Int) :
    (mockData rt symbol interval now s0).1 =
      (List.range 100).map (fun i => (mockPoint rt symbol interval now i 0).1) :=
  mockLoop_fst rt symbol interval now (List.range 100) s0

theorem mockData_length (rt : PyRuntime) (symbol interval : String)
    (now : Int) (s0 : Int) : (mockData rt symbol interval now s0).1.length = 100 := by
  rw [mockData_fst]; simp

theorem mockPoint_timestamp (rt : PyRuntime) (symbol interval : String)
    (now : Int) (i : Nat) (s : Int) :
    (mockPoint rt symbol interval now i s).1.timestamp =
      now - (i : Int) * intervalMinutes interval := rfl

theorem mockData_getD_timestamp (rt : PyRuntime) (symbol interval : String)
    (now : Int) (s0 : Int) {i : Nat} (hi : i < 100) :
    ((mockData rt symbol interval now s0).1.getD i default).timestamp =
      now - (i : Int) * intervalMinutes interval := by
  rw [mockData_fst]
  have : ((List.range 100).map
      (fun j => (mockPoint rt symbol interval now j 0).1)).getD i default =
      (mockPoint rt symbol interval now i 0).1 := by
    rw [List.getD_eq_getElem?_getD, List.getElem?_map, List.getElem?_range hi]
    rfl
  rw [this, mockPoint_timestamp]

theorem one_le_intervalMinutes (interval : String) : 1 ≤ intervalMinutes interval := by
  unfold intervalMinutes
  split
  · norm_num
  · split
    · norm_num
    · split
      · norm_num
      · split <;> norm_num

/-! ### The indicator engine (`StockCrawler._add_basic_indicators`)

Exact-rational embedding of the pandas computations.  pandas
`rolling(w).f()` with the default `min_periods = w` yields a value at index
`i` only when the window of the `w` entries ending at `i` holds `w`
non-null samples; earlier indices (and windows polluted by a null) yield
null, modelled as `none`.  The 10-day volatility column stores
`rolling(10).std(ddof=1)`; the embedding carries its square — the exact
sample variance — so the column stays inside `ℚ`; the standard deviation
itself is `Real.sqrt` of the carried value (see `sampleStd`). -/

/-- Enriched row: the base OHLCV row plus the indicator columns.  A column
that `_add_basic_indicators` does not create (frame shorter than the
window) is `none` at every point. -/
structure ERow where
  base : HRow
  sma_20 : Option ℚ
  sma_50 : Option ℚ
  sma_200 : Option ℚ
  daily_return : Option ℚ
  volatility_10d_sq : Option ℚ
  volume_change : Option ℚ
  rs_50 : Option ℚ
deriving DecidableEq, Inhabited

/-- pandas `rolling(w).mean()` at index `i`: the mean of the `w` entries
ending at `i`, absent while fewer than `w` entries exist. -/
def rollingMeanAt (w : Nat) (xs : List ℚ) (i : Nat) : Option ℚ :=
  if w ≤ i + 1 then some ((((xs.take (i + 1)).drop (i + 1 - w)).sum) / w)
  else none

/-- The SMA(w) column: created only when the frame has at least `w` rows
(the `if len(df) >= w` guards); otherwise absent at every point. -/
def smaColumn (w : Nat) (xs : List ℚ) : List (Option ℚ) :=
  if w ≤ xs.length then (List.range xs.length).map (rollingMeanAt w xs)
  else List.replicate xs.length none

/-- pandas `Series.pct_change() * 100` at index `i`: absent at index 0.
Division is the total division of `ℚ` (a zero previous value, which pandas
maps to an IEEE infinity, is not exercised by the claims). -/
def pctChangeAt (xs : List ℚ) (i : Nat) : Option ℚ :=
  if i = 0 then none
  else some ((xs.getD i 0 - xs.getD (i - 1) 0) / xs.getD (i - 1) 0 * 100)

/-- Sample mean. -/
def sampleMean (xs : List ℚ) : ℚ := xs.sum / xs.length

/-- Sample variance with denominator `n - 1` (pandas `std`'s default
`ddof=1`), i.e. the square of the sample standard deviation. -/
def sampleVar (xs : List ℚ) : ℚ :=
  ((xs.map (fun x => (x - sampleMean xs) ^ 2)).sum) / ((xs.length : ℚ) - 1)

/-- The sample standard deviation, as the spec words it. -/
noncomputable def sampleStd (xs : List ℚ) : ℝ := Real.sqrt ((sampleVar xs : ℚ) : ℝ)

/-- pandas `rolling(w).std(ddof=1)` at index `i`, over a column that may
hold nulls, carried as the sample variance: a value appears only when the
window of the `w` entries ending at `i` exists and holds no null. -/
def rollingVarAt (w : Nat) (col : List (Option ℚ)) (i : Nat) : Option ℚ :=
  if w ≤ i + 1 then
    let window := (col.take (i + 1)).drop (i + 1 - w)
    if window.all (fun x => x.isSome) then some (sampleVar (window.filterMap id))
    else none
  else none

/-- The `volatility_10d` column (as its square): created only when the
frame has at least 10 rows (`if len(df) >= 10`). -/
def volatilityColumn (returns : List (Option ℚ)) : List (Option ℚ) :=
  if 10 ≤ returns.length then (List.range returns.length).map (rollingVarAt 10 returns)
  else List.replicate returns.length none

/-- `_add_basic_indicators(df)`.  The body sits in a `try`/`except` that
returns the frame unchanged on error; every operation modelled here is
total over `ℚ`, so the handler never fires and is not represented. -/
def addBasicIndicators (df : List HRow) : List ERow :=
  let n := df.length
  let closes := df.map (fun r => r.close)
  let volumes := df.map (fun r => (r.volume : ℚ))
  let sma20 := smaColumn 20 closes
  let sma50 := smaColumn 50 closes
  let sma200 := smaColumn 200 closes
  let dailyReturn := (List.range n).map (pctChangeAt closes)
  let volatility := volatilityColumn dailyReturn
  let volumeChange := (List.range n).map (pctChangeAt volumes)
  let rs50 :=
    if 50 ≤ n then
      (List.range n).map (fun i => (sma50.getD i none).map (fun m => closes.getD i 0 / m))
    else List.replicate n none
  (List.range n).map (fun i =>
    { base := df.getD i default
      sma_20 := sma20.getD i none
      sma_50 := sma50.getD i none
      sma_200 := sma200.getD i none
      daily_return := dailyReturn.getD i none
      volatility_10d_sq := volatility.getD i none
      volume_change := volumeChange.getD i none
      rs_50 := rs50.getD i none })

theorem addBasicIndicators_length (df : List HRow) :
    (addBasicIndicators df).length = df.length := by
  simp [addBasicIndicators]

/-! ### Name resolution, the mock historical generator and the fetch paths -/

/-- The names bound at module level in `src/crawlers/stock_crawler.py`:
its imports (`requests`, `pandas as pd`, `time`, `datetime`, `timedelta`,
`os`, `logging` and the `typing` names) and its module globals.  Neither
`np` (numpy) nor `yf` (yfinance) is ever bound at module level; `yfinance`
is imported only inside the local scopes of `_check_yfinance_available`,
`_get_yahoo_data` and `get_historical_data`. -/
def moduleGlobals : List String :=
  ["requests", "pd", "time", "datetime", "timedelta", "os", "logging",
   "List", "Dict", "Any", "Optional", "logger", "has_yfinance", "StockCrawler"]

/-- Evaluating a global name reference: an unbound name raises
`NameError`. -/
def evalGlobal (n : String) : Except PyErr Unit :=
  if n ∈ moduleGlobals then .ok () else .error (.nameError n)

/-- `np.sin(x)`: the reference to the name `np` is evaluated before the
call; the sine itself is the runtime's. -/
def npSin (rt : PyRuntime) (x : ℚ) : Except PyErr ℚ := do
  _ ← evalGlobal "np"
  pure (rt.sin x)

/-- The number of points `_get_mock_historical_data` generates: the
`timeframe`/`period` cascade, defaulting to 100. -/
def mockHistPoints (timeframe period : String) : Nat :=
  if timeframe = "1h" then 24 * 30
  else if timeframe = "1d" then
    (if period = "1mo" then 30
     else if period = "3mo" then 90
     else if period = "6mo" then 180
     else if period = "1y" then 365
     else if period = "5y" then 365 * 5
     else 100)
  else if timeframe = "1wk" then 52 * 5
  else if timeframe = "1mo" then 12 * 10
  else 100

/-- Minutes between consecutive mock historical points. -/
def histStepMinutes (timeframe : String) : Int :=
  if timeframe = "1h" then 60
  else if timeframe = "1d" then 24 * 60
  else if timeframe = "1wk" then 7 * 24 * 60
  else 30 * 24 * 60

/-- One iteration of the `_get_mock_historical_data` loop.  The cycle term
is `10.0 * np.sin(i / 10)` (long timeframes) or `5.0 * np.sin(i / 5)`:
both reference `np`, which `stock_crawler.py` never imports, so the
iteration raises `NameError` before producing a row. -/
def mockHistPoint (rt : PyRuntime) (symbol timeframe : String) (points : Nat)
    (now : Int) (i : Nat) (_s : Int) : Except PyErr (HRow × Int) := do
  let timestamp := now - (i : Int) * histStepMinutes timeframe
  let st := rt.seedFn ((i : Int) + rt.hash symbol)
  let (trend_factor, cycle) ←
    if timeframe = "1mo" ∨ timeframe = "1wk" then do
      let s ← npSin rt ((i : ℚ) / 10)
      pure ((20 * (1 - (i : ℚ) / points), 10 * s) : ℚ × ℚ)
    else do
      let s ← npSin rt ((i : ℚ) / 5)
      pure ((10 * (1 - (i : ℚ) / points), 5 * s) : ℚ × ℚ)
  let (randomness, st) := rt.uniform (-5) 5 st
  let close := basePrice symbol + trend_factor + cycle + randomness
  let (u1, st) := rt.uniform (-2) 2 st
  let open_ := close - u1
  let (u2, st) := rt.uniform (1/2) 3 st
  let high := max open_ close + u2
  let (u3, st) := rt.uniform (1/2) 3 st
  let low := min open_ close - u3
  let (u4, st) := rt.uniform 5000000 20000000 st
  pure ({ symbol := symbol, timestamp := timestamp, timeframe := timeframe,
          open_ := open_, high := high, low := low, close := close,
          volume := u4.floor }, st)

/-- The row-generation loop of `_get_mock_historical_data`. -/
def mockHistLoop (rt : PyRuntime) (symbol timeframe : String) (points : Nat)
    (now : Int) : List Nat → Int → Except PyErr (List HRow × Int)
  | [], s => pure ([], s)
  | i :: is, s => do
      let step ← mockHistPoint rt symbol timeframe points now i s
      let rest ← mockHistLoop rt symbol timeframe points now is step.2
      pure (step.1 :: rest.1, rest.2)

/-- `_get_mock_historical_data(symbol, timeframe, period)`: generate the
rows, then enrich them with `_add_basic_indicators`. -/
def mockHistoricalData (rt : PyRuntime) (symbol timeframe period : String)
    (now : Int) (s0 : Int) : Except PyErr (List ERow × Int) := do
  let res ← mockHistLoop rt symbol timeframe (mockHistPoints timeframe period) now
    (List.range (mockHistPoints timeframe period)) s0
  pure (addBasicIndicators res.1, res.2)

/-- The external world of the networked fetch paths: whether `yfinance`
imports, and what `ticker.history(...)` returns for a symbol ×
(period, interval) request (`.error` models a raised exception, `.ok []`
an empty frame). -/
structure FetchEnv where
  has_yfinance : Bool
  yahooHistory : String → String → String → Except PyErr (List RawRow)
  yahooDaily : String → Except PyErr (List RawRow)
  alphaDaily : String → Except PyErr (List RawRow)

/-- `StockCrawler.__init__` + `_check_yfinance_available`: the effective
`data_source` after the constructor's fallbacks — `alphavantage` without
an API key degrades to `yahoo`, and `yahoo` without an importable yfinance
degrades to `mock` (recorded in the sticky global `has_yfinance`). -/
def initDataSource (api_key : Option String) (data_source : String)
    (yfinance_available : Bool) : String :=
  let ds := if data_source = "alphavantage" ∧ api_key = none then "yahoo"
            else data_source
  if ds = "yahoo" ∧ ¬ yfinance_available then "mock" else ds

/-- The `yf_timeframe_map` of `get_historical_data` is the identity on its
four keys and falls back to the input elsewhere — the identity. -/
def yfTimeframeMap (timeframe : String) : String := timeframe

/-- The period clamp for hourly data: Yahoo limits sub-daily intervals. -/
def clampPeriod (yf_timeframe period : String) : String :=
  if yf_timeframe = "1h" ∧ (period = "1y" ∨ period = "2y" ∨ period = "5y"
      ∨ period = "10y" ∨ period = "max") then "60d"
  else period

/-- `get_historical_data(symbol, timeframe, period)`.  The `yahoo` branch
runs inside `try`/`except`; the handler's fallback call to
`_get_mock_historical_data` sits *outside* any `try`, so an exception it
raises (the `np` `NameError`) propagates to the caller, as does the one
from the `else` branch. -/
def get_historical_data (rt : PyRuntime) (env : FetchEnv)
    (data_source : String) (symbol timeframe period : String) (now : Int)
    (s0 : Int) : Except PyErr (List ERow × Int) :=
  if data_source = "yahoo" then
    let body : Except PyErr (List ERow × Int) :=
      if ¬ env.has_yfinance then
        mockHistoricalData rt symbol timeframe period now s0
      else
        let yf_timeframe := yfTimeframeMap timeframe
        match env.yahooHistory symbol (clampPeriod yf_timeframe period) yf_timeframe with
        | .error e => .error e
        | .ok raw =>
            if raw.isEmpty then .ok ([], s0)
            else .ok (addBasicIndicators (raw.map (fun r =>
                { symbol := symbol, timestamp := r.timestamp,
                  timeframe := timeframe, open_ := r.open_, high := r.high,
                  low := r.low, close := r.close, volume := r.volume })), s0)
    match body with
    | .ok v => .ok v
    | .error _ => mockHistoricalData rt symbol timeframe period now s0
  else
    mockHistoricalData rt symbol timeframe period now s0

/-- The daily mock generator `_get_mock_daily_data` (365 points). -/
def mockDailyPoint (rt : PyRuntime) (symbol : String) (now : Int) (i : Nat)
    (_s : Int) : Row × Int :=
  let timestamp := now - (i : Int) * (24 * 60)
  let st := rt.seedFn ((i : Int) + rt.hash symbol)
  let monthly_trend : ℚ := 10 * ((i : ℚ) / 365)
  let weekly_cycle : ℚ := 5 * (((i % 7 : Nat) : ℚ) / 7)
  let (randomness, st) := rt.uniform (-5) 5 st
  let close := basePrice symbol + monthly_trend + weekly_cycle + randomness
  let (u1, st) := rt.uniform (-2) 2 st
  let open_ := close - u1
  let (u2, st) := rt.uniform (1/2) 3 st
  let high := max open_ close + u2
  let (u3, st) := rt.uniform (1/2) 3 st
  let low := min open_ close - u3
  let (u4, st) := rt.uniform 5000000 20000000 st
  ({ symbol := symbol, timestamp := timestamp, open_ := open_, high := high,
     low := low, close := close, volume := u4.floor }, st)

def mockDailyLoop (rt : PyRuntime) (symbol : String) (now : Int) :
    List Nat → Int → List Row × Int
  | [], s => ([], s)
  | i :: is, s =>
      let step := mockDailyPoint rt symbol now i s
      let rest := mockDailyLoop rt symbol now is step.2
      (step.1 :: rest.1, rest.2)

def mockDailyData (rt : PyRuntime) (symbol : String) (now : Int) (s0 : Int) :
    List Row × Int :=
  mockDailyLoop rt symbol now (List.range 365) s0

/-- `get_daily_data(symbol)`.  In the `yahoo` branch the body references
`yf.Ticker`, but — unlike `_get_yahoo_data` and `get_historical_data` —
this function contains no `import yfinance as yf`, and `yf` is not a
module global; the reference raises `NameError`, the branch's `except`
returns an empty DataFrame, and no mock fallback exists on this path.
The `alphavantage` branch's response parsing is abstracted into
`env.alphaDaily`; its `except` also returns an empty frame. -/
def get_daily_data (rt : PyRuntime) (env : FetchEnv) (data_source : String)
    (symbol : String) (now : Int) (s0 : Int) : List Row × Int :=
  if data_source = "yahoo" then
    let body : Except PyErr (List Row) := do
      _ ← evalGlobal "yf"
      let raw ← env.yahooDaily symbol
      if raw.isEmpty then pure []
      else pure (raw.map (fun r =>
        { symbol := symbol, timestamp := r.timestamp, open_ := r.open_,
          high := r.high, low := r.low, close := r.close, volume := r.volume }))
    match body with
    | .ok df => (df, s0)
    | .error _ => ([], s0)
  else if data_source = "alphavantage" then
    match env.alphaDaily symbol with
    | .ok raw => (raw.map (fun r =>
        { symbol := symbol, timestamp := r.timestamp, open_ := r.open_,
          high := r.high, low := r.low, close := r.close, volume := r.volume }), s0)
    | .error _ => ([], s0)
  else
    mockDailyData rt symbol now s0

/-! ### Supporting lemmas for the fetch paths -/

theorem evalGlobal_np : evalGlobal "np" = .error (.nameError "np") := rfl

theorem evalGlobal_yf : evalGlobal "yf" = .error (.nameError "yf") := rfl

theorem error_bind {ε β γ : Type} (e : ε) (f : β → Except ε γ) :
    (Except.error e >>= f : Except ε γ) = Except.error e := rfl

/-- Every iteration of the mock historical loop raises `NameError` at the
`np.sin` reference, before producing a row. -/
theorem mockHistPoint_raises (rt : PyRuntime) (symbol timeframe : String)
    (points : Nat) (now : Int) (i : Nat) (s : Int) :
    mockHistPoint rt symbol timeframe points now i s = .error (.nameError "np") := by
  by_cases h : timeframe = "1mo" ∨ timeframe = "1wk" <;>
    simp [mockHistPoint, npSin, evalGlobal_np, h]

theorem mockHistLoop_raises (rt : PyRuntime) (symbol timeframe : String)
    (points : Nat) (now : Int) (i : Nat) (is : List Nat) (s : Int) :
    mockHistLoop rt symbol timeframe points now (i :: is) s = .error (.nameError "np") := by
  simp only [mockHistLoop, mockHistPoint_raises]
  rfl

theorem mockHistPoints_pos (timeframe period : String) :
    0 < mockHistPoints timeframe period := by
  unfold mockHistPoints
  split
  · norm_num
  · split
    · split
      · norm_num
      · split
        · norm_num
        · split
          · norm_num
          · split
            · norm_num
            · split <;> norm_num
    · split
      · norm_num
      · split <;> norm_num

/-- The designated synthetic fallback `_get_mock_historical_data` always
raises `NameError` on its first iteration: `stock_crawler.py` never imports
numpy, yet the generator calls `np.sin`. -/
theorem mockHistoricalData_raises (rt : PyRuntime) (symbol timeframe period : String)
    (now s0 : Int) :
    mockHistoricalData rt symbol timeframe period now s0 = .error (.nameError "np") := by
  unfold mockHistoricalData
  obtain ⟨k, hk⟩ : ∃ k, mockHistPoints timeframe period = k + 1 :=
    ⟨mockHistPoints timeframe period - 1,
      (Nat.succ_pred_eq_of_pos (mockHistPoints_pos timeframe period)).symm⟩
  rw [hk, List.range_succ_eq_map]
  simp [mockHistLoop_raises]

/-- A fetch environment in which yfinance fails to import (module missing
in the container). -/
def envNoYfinance : FetchEnv where
  has_yfinance := false
  yahooHistory := fun _ _ _ => .ok []
  yahooDaily := fun _ => .ok []
  alphaDaily := fun _ => .ok []

/-- C3: the spec says the resolver never raises and falls back to a
non-empty synthetic series when the networked adapters fail.  The code
contradicts it: the synthetic generator for the pipeline's
`(symbol, timeframe, period)` fetch raises `NameError` (the name `np` is
never bound), so a fetch with `data_source = "mock"` — and equally the
yahoo path once yfinance is unavailable, i.e. exactly when the synthetic
fallback is needed — raises to the caller instead of returning data. -/
theorem fetch_fallback_raises_nameError (rt : PyRuntime) (env : FetchEnv)
    (symbol timeframe period : String) (now s0 : Int) :
    mockHistoricalData rt symbol timeframe period now s0 = .error (.nameError "np") ∧
    get_historical_data rt env "mock" symbol timeframe period now s0
      = .error (.nameError "np") ∧
    (env.has_yfinance = false →
      get_historical_data rt env "yahoo" symbol timeframe period now s0
        = .error (.nameError "np")) := by
  refine ⟨mockHistoricalData_raises rt symbol timeframe period now s0, ?_, ?_⟩
  · simp [get_historical_data, mockHistoricalData_raises]
  · intro h
    simp [get_historical_data, h, mockHistoricalData_raises]

/-- Witness for C3 at a concrete input: the pipeline's daily work unit for
AAPL, with yfinance unavailable, raises the `np` NameError. -/
theorem fetch_fallback_raises_nameError_witness :
    envNoYfinance.has_yfinance = false ∧
    get_historical_data simpleRuntime envNoYfinance "yahoo" "AAPL" "1d" "1y" 0 0
      = .error (.nameError "np") :=
  ⟨rfl, (fetch_fallback_raises_nameError simpleRuntime envNoYfinance
      "AAPL" "1d" "1y" 0 0).2.2 rfl⟩

/-- C10: with `data_source = "yahoo"`, `get_daily_data` always returns an
empty frame: its body references `yf` without importing it in that scope,
the `NameError` is caught by the branch handler, and the empty-frame
branch is taken — no mock fallback exists on this path, whatever the
environment (even with yfinance importable and the network up). -/
theorem get_daily_data_yahoo_always_empty (rt : PyRuntime) (env : FetchEnv)
    (symbol : String) (now s0 : Int) :
    get_daily_data rt env "yahoo" symbol now s0 = ([], s0) := by
  simp only [get_daily_data, evalGlobal_yf, if_pos rfl, error_bind]
  rfl

/-! ### Claims about the synthetic intraday generator (C6, C7) -/

/-- C6 counterexample: the mock generator is not a pure function of
(symbol, interval) alone — its timestamps (and, through `timestamp.hour`,
its prices) are derived from `datetime.now()`, so two calls with identical
inputs at different clock instants produce different series. -/
theorem mockData_clock_dependent :
    (mockData simpleRuntime "AAPL" "60min" 0 0).1 ≠
      (mockData simpleRuntime "AAPL" "60min" 60 0).1 := by
  intro h
  have h0 : ((mockData simpleRuntime "AAPL" "60min" 0 0).1.getD 0 default).timestamp =
      ((mockData simpleRuntime "AAPL" "60min" 60 0).1.getD 0 default).timestamp := by
    rw [h]
  rw [mockData_getD_timestamp simpleRuntime "AAPL" "60min" 0 0 (by norm_num),
      mockData_getD_timestamp simpleRuntime "AAPL" "60min" 60 0 (by norm_num)] at h0
  simp at h0

/-- C6 (amended): two calls of `_get_mock_data` with the same
(symbol, interval) and the same clock reading produce identical series
whatever the ambient state of the global pseudo-random generator, because
`random.seed(i + hash(symbol))` replaces that state at every point — and
this holds for every runtime (every seeding/uniform implementation). -/
theorem mockData_deterministic (rt : PyRuntime) (symbol interval : String)
    (now : Int) (s1 s2 : Int) :
    (mockData rt symbol interval now s1).1 = (mockData rt symbol interval now s2).1 := by
  rw [mockData_fst, mockData_fst]

/-- C7 counterexample: the synthetic intraday series is not ordered
ascending by timestamp — the loop generates `now - i·Δ` for `i = 0, …, 99`,
so timestamps descend. -/
theorem mockData_not_ascending :
    ¬ ((mockData simpleRuntime "AAPL" "60min" 0 0).1.map Row.timestamp).Pairwise (· ≤ ·) := by
  intro h
  rw [mockData_fst, List.map_map, List.pairwise_map] at h
  have h01 := (List.pairwise_iff_get.mp h) ⟨0, by simp⟩ ⟨1, by simp⟩
    (by rw [Fin.lt_def]; norm_num)
  simp only [List.get_eq_getElem, List.getElem_range, Function.comp_apply,
    mockPoint_timestamp, show intervalMinutes "60min" = 60 from rfl] at h01
  norm_num at h01

/-- C7 (amended): every series the synthetic intraday generator produces is
strictly *descending* by timestamp, and in particular carries no duplicate
timestamps. -/
theorem mockData_descending_nodup (rt : PyRuntime) (symbol interval : String)
    (now : Int) (s0 : Int) :
    ((mockData rt symbol interval now s0).1.map Row.timestamp).Pairwise (· > ·) ∧
    ((mockData rt symbol interval now s0).1.map Row.timestamp).Nodup := by
  have hp : ((mockData rt symbol interval now s0).1.map Row.timestamp).Pairwise (· > ·) := by
    rw [mockData_fst, List.map_map, List.pairwise_map]
    have hr : (List.range 100).Pairwise (· < ·) := List.pairwise_lt_range 100
    refine hr.imp ?_
    intro i j hij
    simp only [Function.comp_apply, mockPoint_timestamp]
    have hΔ : 0 < intervalMinutes interval :=
      lt_of_lt_of_le one_pos (one_le_intervalMinutes interval)
    have : (i : Int) * intervalMinutes interval < (j : Int) * intervalMinutes interval := by
      apply mul_lt_mul_of_pos_right _ hΔ
      exact_mod_cast hij
    omega
  exact ⟨hp, hp.imp (fun h => ne_of_gt h)⟩

/-! ### Claims about storage and orchestration (C1, C2, C8, C9) -/

/-- C1: upsert idempotence.  For a batch with pairwise distinct keys (a
fetched series has unique timestamps) against a table satisfying its
unique constraint, re-upserting the same batch leaves the table contents
literally unchanged: same rows, same row count, every non-key column at
the batch (latest-write) values — `Absorbs` — and no duplicate rows for
the key.  This is the `ON CONFLICT ... DO UPDATE` statement of both
`insert_to_postgres` and `load_and_insert_data`. -/
theorem upsert_idempotent {κ α : Type} [DecidableEq κ]
    (rows t : Table κ α)
    (hrows : (keys rows).Nodup) (ht : (keys t).Nodup) :
    upsertAll rows (upsertAll rows t) = upsertAll rows t ∧
    (upsertAll rows (upsertAll rows t)).length = (upsertAll rows t).length ∧
    Absorbs (upsertAll rows t) rows ∧
    (keys (upsertAll rows t)).Nodup :=
  ⟨upsertAll_idem hrows, by rw [upsertAll_idem hrows],
   absorbs_upsertAll t hrows, keys_nodup_upsertAll ht⟩

/-- A concrete two-row batch (one symbol, two timestamps, daily
timeframe). -/
def c1Rows : Table KeyV2 ℚ := [(("AAPL", 100, "1d"), 7), (("AAPL", 160, "1d"), 8)]

/-- A concrete pre-existing table for another symbol. -/
def c1Tbl : Table KeyV2 ℚ := [(("MSFT", 100, "1d"), 9)]

/-- Witness for C1 at a concrete batch and table. -/
theorem upsert_idempotent_witness :
    (keys c1Rows).Nodup ∧ (keys c1Tbl).Nodup ∧
    (upsertAll c1Rows (upsertAll c1Rows c1Tbl) = upsertAll c1Rows c1Tbl ∧
     (upsertAll c1Rows (upsertAll c1Rows c1Tbl)).length =
       (upsertAll c1Rows c1Tbl).length ∧
     Absorbs (upsertAll c1Rows c1Tbl) c1Rows ∧
     (keys (upsertAll c1Rows c1Tbl)).Nodup) :=
  ⟨by decide, by decide, upsert_idempotent c1Rows c1Tbl (by decide) (by decide)⟩

/-- C8 counterexample: on an empty fetch `crawl_stock_data` returns `None`
— not an IngestResult with `row_count: 0` and `status: "no_data"`.  (No
result record with a `status` field exists anywhere: `CrawlResult` has
none.) -/
theorem empty_fetch_counterexample :
    ¬ ∃ r : CrawlResult,
        (crawl_stock_data "AAPL" "daily" "2024-01-01_00-00-00"
          ([] : Frame ℚ) []).1 = some r ∧ r.row_count = 0 := by
  rintro ⟨r, hr, -⟩
  rw [show (crawl_stock_data "AAPL" "daily" "2024-01-01_00-00-00"
      ([] : Frame ℚ) []).1 = none from rfl] at hr
  cases hr

/-- C8 (amended): on an empty fetch the crawl task returns `None` (no
result record) before touching storage — MinIO is unchanged — and the
downstream insert task, finding no crawl result, returns with both
Postgres tables untouched and no error. -/
theorem empty_fetch_no_storage {α : Type} (symbol timeframe_key execution_date : String)
    (df : Frame α) (minio : MinioState α) (extra_columns : Nat) (pg : PgState α)
    (h : df = []) :
    crawl_stock_data symbol timeframe_key execution_date df minio = (none, minio) ∧
    insert_to_postgres
      (crawl_stock_data symbol timeframe_key execution_date df minio).1
      minio extra_columns pg = .ok pg := by
  subst h
  exact ⟨rfl, rfl⟩

/-- Witness for C8 at a concrete empty fetch. -/
theorem empty_fetch_no_storage_witness :
    (([] : Frame ℚ) = []) ∧
    (crawl_stock_data "AAPL" "daily" "d" ([] : Frame ℚ) ([] : MinioState ℚ)
        = (none, ([] : MinioState ℚ)) ∧
     insert_to_postgres
        (crawl_stock_data "AAPL" "daily" "d" ([] : Frame ℚ) ([] : MinioState ℚ)).1
        ([] : MinioState ℚ) 7 (⟨[], []⟩ : PgState ℚ)
        = .ok (⟨[], []⟩ : PgState ℚ)) :=
  ⟨rfl, empty_fetch_no_storage "AAPL" "daily" "d" [] [] 7 ⟨[], []⟩ rfl⟩

/-- C9: per-unit failure isolation.  When a unit's batch upsert raises
(here it always does: `execute_values` rejects the query; a constraint
violation would flow through the same handler), `insert_to_postgres`
catches it (returns normally rather than propagating), the rollback
leaves the database exactly as before the unit, and a schedule containing
the failing unit produces the same database as the schedule without it —
every other unit proceeds unaffected. -/
theorem upsert_failure_isolated {α : Type} (minio : MinioState α)
    (r : CrawlResult) (extra_columns : Nat) (pg : PgState α)
    (pre post : List (Option CrawlResult × Nat))
    (hobj : minioGet minio (pyReplace r.file_path "s3://stock-data/" "") ≠ none) :
    insert_to_postgres (some r) minio extra_columns pg = .ok pg ∧
    processUnits (pre ++ (some r, extra_columns) :: post) minio pg =
      processUnits (pre ++ post) minio pg := by
  constructor
  · exact insert_to_postgres_rolls_back r minio extra_columns pg hobj
  · rw [processUnits_append, processUnits_append]
    show processUnits ((some r, extra_columns) :: post) minio _ = _
    unfold processUnits
    rw [List.foldl_cons, runInsert_const]

/-- Witness for C9 at a concrete store and schedule. -/
theorem upsert_failure_isolated_witness :
    (minioGet [("AAPL/daily/d.csv", c1Rows)]
        (pyReplace "s3://stock-data/AAPL/daily/d.csv" "s3://stock-data/" "") ≠ none) ∧
    (insert_to_postgres
        (some ⟨"AAPL", "daily", "s3://stock-data/AAPL/daily/d.csv", 2, "d"⟩)
        [("AAPL/daily/d.csv", c1Rows)] 7 ⟨[], []⟩ = .ok ⟨[], []⟩ ∧
     processUnits
        ([] ++ (some ⟨"AAPL", "daily", "s3://stock-data/AAPL/daily/d.csv", 2, "d"⟩,
           7) :: [(none, 0)])
        [("AAPL/daily/d.csv", c1Rows)] ⟨[], []⟩ =
       processUnits ([] ++ [(none, 0)]) [("AAPL/daily/d.csv", c1Rows)] ⟨[], []⟩) :=
  ⟨by decide,
   upsert_failure_isolated [("AAPL/daily/d.csv", c1Rows)]
     ⟨"AAPL", "daily", "s3://stock-data/AAPL/daily/d.csv", 2, "d"⟩
     7 ⟨[], []⟩ [] [(none, 0)] (by decide)⟩

/-- Recovering the object key from the crawl result: the code computes
`file_path.replace('s3://stock-data/', '')`, which round-trips whenever the
object key itself does not contain the bucket-URL pattern (true of every
real `{symbol}/{timeframe}/{date}.csv` key). -/
theorem pyReplace_bucket (objkey : String)
    (hk : pyReplace objkey "s3://stock-data/" "" = objkey) :
    pyReplace ("s3://stock-data/" ++ objkey) "s3://stock-data/" "" = objkey := by
  unfold pyReplace at hk ⊢
  have happ : ("s3://stock-data/" ++ objkey).toList =
      "s3://stock-data/".toList ++ objkey.toList := rfl
  have hnil : "".toList = ([] : List Char) := rfl
  rw [happ, hnil] at *
  rw [replaceList_append_self (by decide) objkey.toList]
  exact hk

/-- The per-file body of `load_and_insert_data` (`fix_data_transfer.py`):
the staged CSV's rows are upserted row by row (`execute_batch`, which
mogrifies and executes the statement once per row and accepts any number
of placeholders) first into the legacy `stock_data` keyed by
(symbol, timestamp), then into `stock_data_v2` keyed by
(symbol, timestamp, timeframe) where the timeframe is the one parsed from
the object path (`parts[1]`), not the CSV's own timeframe column.  The
payload stands for the base OHLCV columns — the only non-key columns the
utility transfers into either table. -/
def transferFile {α : Type} (path_timeframe : String) (df : Frame α)
    (pg : PgState α) : PgState α :=
  { stock_data :=
      upsertAll (df.map (fun e => ((e.1.1, e.1.2.1), e.2))) pg.stock_data
    stock_data_v2 :=
      upsertAll (df.map (fun e => ((e.1.1, e.1.2.1, path_timeframe), e.2)))
        pg.stock_data_v2 }

/-- C2 counterexample: ingesting one concrete unit (one fetched row for
AAPL at timestamp 100, daily timeframe) through the DAG from empty storage
leaves *both* relational tables empty — the legacy table is never
referenced by `insert_to_postgres`, and the versioned upsert's
`execute_values` call raises `ValueError` on the multi-placeholder query
and is rolled back — so no row exists in either table for the fetched
timestamp, let alone in both. -/
theorem pipeline_dual_write_counterexample :
    (ingestUnit "AAPL" "daily" "d1" [(("AAPL", 100, "1d"), (42 : ℚ))]
        ([] : MinioState ℚ) 7 (⟨[], []⟩ : PgState ℚ)).2.2
      = .ok (⟨[], []⟩ : PgState ℚ) ∧
    ¬ (("AAPL", (100 : Int)) ∈ keys ((⟨[], []⟩ : PgState ℚ).stock_data) ∧
       ("AAPL", (100 : Int), "1d") ∈ keys ((⟨[], []⟩ : PgState ℚ).stock_data_v2)) := by
  refine ⟨rfl, by decide⟩

/-- C2 (amended): the pipeline's own ingestion writes *neither* table —
the DAG's insert task always returns with the relational state unchanged
(the legacy table is not referenced at all, and the versioned upsert fails
inside its `try` before executing and is rolled back).  A row exists in
both the legacy table (keyed without timeframe) and the versioned table
(keyed with the path timeframe) for every staged timestamp only after the
separate transfer utility `load_and_insert_data` processes the staged
file. -/
theorem pipeline_writes_neither_transfer_writes_both {α : Type}
    (symbol timeframe_key execution_date path_timeframe : String)
    (df : Frame α) (minio : MinioState α) (extra_columns : Nat)
    (pg : PgState α)
    (hk : pyReplace
        (symbol ++ "/" ++ timeframe_key ++ "/" ++ execution_date ++ ".csv")
        "s3://stock-data/" ""
      = symbol ++ "/" ++ timeframe_key ++ "/" ++ execution_date ++ ".csv") :
    (ingestUnit symbol timeframe_key execution_date df minio extra_columns pg).2.2
      = .ok pg ∧
    (∀ k ∈ keys df,
      (k.1, k.2.1) ∈ keys (transferFile path_timeframe df pg).stock_data ∧
      (k.1, k.2.1, path_timeframe) ∈
        keys (transferFile path_timeframe df pg).stock_data_v2) := by
  constructor
  · cases hdf : df with
    | nil => rfl
    | cons a l =>
        have hemp : df.isEmpty = false := by rw [hdf]; rfl
        rw [← hdf]
        have hbucket := pyReplace_bucket _ hk
        have hroll := insert_to_postgres_rolls_back
          (α := α)
          { symbol := symbol, timeframe := timeframe_key,
            file_path := "s3://stock-data/" ++
              (symbol ++ "/" ++ timeframe_key ++ "/" ++ execution_date ++ ".csv"),
            row_count := df.length, execution_date := execution_date }
          (minioPut minio
            (symbol ++ "/" ++ timeframe_key ++ "/" ++ execution_date ++ ".csv") df)
          extra_columns pg
          (by rw [hbucket, minioGet_put]; exact fun hcon => Option.noConfusion hcon)
        simp [ingestUnit, crawl_stock_data, hemp, hroll]
  · intro k hkk
    rcases List.mem_map.mp hkk with ⟨e, he, hek⟩
    constructor
    · apply mem_keys_upsertAll_of_mem_rows
      exact List.mem_map.mpr ⟨((e.1.1, e.1.2.1), e.2),
        List.mem_map.mpr ⟨e, he, rfl⟩, by rw [← hek]⟩
    · apply mem_keys_upsertAll_of_mem_rows
      exact List.mem_map.mpr ⟨((e.1.1, e.1.2.1, path_timeframe), e.2),
        List.mem_map.mpr ⟨e, he, rfl⟩, by rw [← hek]⟩

/-- Witness for the amended C2 at a concrete unit and staged file. -/
theorem pipeline_writes_neither_transfer_writes_both_witness :
    (pyReplace ("AAPL" ++ "/" ++ "daily" ++ "/" ++ "d" ++ ".csv")
        "s3://stock-data/" "" = "AAPL" ++ "/" ++ "daily" ++ "/" ++ "d" ++ ".csv") ∧
    ((ingestUnit "AAPL" "daily" "d" c1Rows ([] : MinioState ℚ) 7
        (⟨[], []⟩ : PgState ℚ)).2.2 = .ok (⟨[], []⟩ : PgState ℚ) ∧
     (∀ k ∈ keys c1Rows,
       (k.1, k.2.1) ∈ keys (transferFile "daily" c1Rows (⟨[], []⟩ : PgState ℚ)).stock_data ∧
       (k.1, k.2.1, "daily") ∈
         keys (transferFile "daily" c1Rows (⟨[], []⟩ : PgState ℚ)).stock_data_v2)) :=
  ⟨by decide,
   pipeline_writes_neither_transfer_writes_both "AAPL" "daily" "d" "daily"
     c1Rows [] 7 ⟨[], []⟩ (by decide)⟩

/-! ### Claims about the indicator engine (C4, C5) -/

theorem getD_map_range {β : Type} (f : Nat → β) {n i : Nat} (hi : i < n) (d : β) :
    ((List.range n).map f).getD i d = f i := by
  rw [List.getD_eq_getElem?_getD, List.getElem?_map, List.getElem?_range hi]
  rfl

theorem getD_replicate_none {β : Type} (n i : Nat) :
    (List.replicate n (none : Option β)).getD i none = none := by
  rw [List.getD_eq_getElem?_getD, List.getElem?_replicate]
  split <;> rfl

/-- The enriched row at any in-range index, with each indicator read off
its column. -/
theorem addBasicIndicators_getD (df : List HRow) {i : Nat} (hi : i < df.length) :
    (addBasicIndicators df).getD i default =
      { base := df.getD i default
        sma_20 := (smaColumn 20 (df.map (fun r => r.close))).getD i none
        sma_50 := (smaColumn 50 (df.map (fun r => r.close))).getD i none
        sma_200 := (smaColumn 200 (df.map (fun r => r.close))).getD i none
        daily_return := ((List.range df.length).map
          (pctChangeAt (df.map (fun r => r.close)))).getD i none
        volatility_10d_sq := (volatilityColumn ((List.range df.length).map
          (pctChangeAt (df.map (fun r => r.close))))).getD i none
        volume_change := ((List.range df.length).map
          (pctChangeAt (df.map (fun r => (r.volume : ℚ))))).getD i none
        rs_50 := (if 50 ≤ df.length then
            (List.range df.length).map (fun j =>
              ((smaColumn 50 (df.map (fun r => r.close))).getD j none).map
                (fun m => (df.map (fun r => r.close)).getD j 0 / m))
          else List.replicate df.length none).getD i none } := by
  simp only [addBasicIndicators]
  rw [getD_map_range _ hi]

/-- SMA(w) is present at index `i` exactly when at least `w` points exist
up to and including `i`. -/
theorem smaColumn_isSome (w : Nat) (xs : List ℚ) {i : Nat} (hi : i < xs.length) :
    ((smaColumn w xs).getD i none).isSome = true ↔ w ≤ i + 1 := by
  unfold smaColumn
  split
  · rw [getD_map_range _ hi]
    unfold rollingMeanAt
    split
    · rename_i h
      simpa using h
    · rename_i h
      simpa using h
  · rename_i hw
    rw [getD_replicate_none]
    simp only [Option.isSome_none, Bool.false_eq_true, false_iff]
    intro h
    exact hw (le_trans h hi)

/-- C4: SMA(n) for n among 20, 50, 200 is present at a point exactly when
at least n points exist up to and including that point — so it is absent
(never a computed zero) everywhere else; enrichment is total and preserves
the series length (a series shorter than every window simply carries
absent indicators at every point, e.g. sma_50 and sma_200 on a 10-point
series). -/
theorem sma_window_presence (df : List HRow) (i : Nat) (hi : i < df.length) :
    (addBasicIndicators df).length = df.length ∧
    ((((addBasicIndicators df).getD i default).sma_20).isSome = true ↔ 20 ≤ i + 1) ∧
    ((((addBasicIndicators df).getD i default).sma_50).isSome = true ↔ 50 ≤ i + 1) ∧
    ((((addBasicIndicators df).getD i default).sma_200).isSome = true ↔ 200 ≤ i + 1) := by
  have hlen : i < (df.map (fun r => r.close)).length := by
    rw [List.length_map]; exact hi
  refine ⟨addBasicIndicators_length df, ?_, ?_, ?_⟩ <;>
    rw [addBasicIndicators_getD df hi] <;>
    exact smaColumn_isSome _ _ hlen

/-- Witness for C4 on a concrete 25-point series at its 20th point. -/
theorem sma_window_presence_witness :
    19 < (List.replicate 25 (default : HRow)).length ∧
    ((addBasicIndicators (List.replicate 25 (default : HRow))).length
        = (List.replicate 25 (default : HRow)).length ∧
     ((((addBasicIndicators (List.replicate 25 (default : HRow))).getD 19 default).sma_20).isSome
        = true ↔ 20 ≤ 19 + 1) ∧
     ((((addBasicIndicators (List.replicate 25 (default : HRow))).getD 19 default).sma_50).isSome
        = true ↔ 50 ≤ 19 + 1) ∧
     ((((addBasicIndicators (List.replicate 25 (default : HRow))).getD 19 default).sma_200).isSome
        = true ↔ 200 ≤ 19 + 1)) :=
  ⟨by simp, sma_window_presence (List.replicate 25 default) 19 (by simp)⟩

/-- The daily return at index `t ≥ 1`:
`(close[t] − close[t−1]) / close[t−1] × 100`, as the spec words it. -/
def dailyReturnVal (closes : List ℚ) (t : Nat) : ℚ :=
  (closes.getD t 0 - closes.getD (t - 1) 0) / closes.getD (t - 1) 0 * 100

theorem pctChangeAt_pos (xs : List ℚ) {t : Nat} (ht : t ≠ 0) :
    pctChangeAt xs t = some (dailyReturnVal xs t) := by
  unfold pctChangeAt dailyReturnVal
  rw [if_neg ht]

theorem filterMap_id_map_some {β γ : Type} (f : β → γ) (l : List β) :
    (l.map (fun x => some (f x))).filterMap id = l.map f := by
  induction l with
  | nil => rfl
  | cons a l ih => simp [ih]

/-- For `i ≥ 10` the 10-wide window of the daily-return column ending at
`i` is exactly the returns at indices `i−9, …, i`, all present. -/
theorem pctChange_window (closes : List ℚ) {n i : Nat}
    (hi : i < n) (h10 : 10 ≤ i) :
    ((((List.range n).map (pctChangeAt closes)).take (i + 1)).drop (i + 1 - 10))
      = (List.range 10).map (fun j => some (dailyReturnVal closes (i - 9 + j))) := by
  apply List.ext_getElem
  · simp only [List.length_drop, List.length_take, List.length_map, List.length_range]
    omega
  · intro j h1 h2
    have hj : j < 10 := by
      simp only [List.length_map, List.length_range] at h2
      exact h2
    rw [List.getElem_drop, List.getElem_take, List.getElem_map, List.getElem_range,
        List.getElem_map, List.getElem_range]
    have harith : i + 1 - 10 + j = i - 9 + j := by omega
    rw [harith]
    exact pctChangeAt_pos closes (by omega)

/-- The volatility column value at `i ≥ 10`: the sample variance of the
trailing 10 returns. -/
theorem volatility_value (df : List HRow) {i : Nat} (hi : i < df.length)
    (h10 : 10 ≤ i) :
    ((addBasicIndicators df).getD i default).volatility_10d_sq
      = some (sampleVar ((List.range 10).map (fun j =>
          dailyReturnVal (df.map (fun r => r.close)) (i - 9 + j)))) := by
  rw [addBasicIndicators_getD df hi]
  show (volatilityColumn _).getD i none = _
  unfold volatilityColumn
  rw [if_pos (by simp only [List.length_map, List.length_range]; omega)]
  rw [getD_map_range _ (by simp only [List.length_map, List.length_range]; exact hi)]
  unfold rollingVarAt
  rw [if_pos (by omega : 10 ≤ i + 1)]
  rw [pctChange_window (df.map (fun r => r.close)) hi h10]
  rw [if_pos (by simp)]
  rw [filterMap_id_map_some]

/-- Before index 10 the volatility column holds no value: either the
column was never created (frame shorter than 10), or the window is too
short, or — at index 9 exactly — the window reaches back to index 0, whose
daily return is absent. -/
theorem volatility_none_of_lt (df : List HRow) {i : Nat} (hi : i < df.length)
    (hlt : i < 10) :
    (volatilityColumn ((List.range df.length).map
        (pctChangeAt (df.map (fun r => r.close))))).getD i none = none := by
  unfold volatilityColumn
  split
  · rename_i hlen
    have hlen10 : 10 ≤ df.length := by
      simpa using hlen
    rw [getD_map_range _ (by simp only [List.length_map, List.length_range]; exact hi)]
    simp only [rollingVarAt]
    by_cases h9 : 10 ≤ i + 1
    · have hi9 : i = 9 := by omega
      subst hi9
      rw [if_pos h9]
      obtain ⟨m, hm⟩ : ∃ m, df.length = m + 1 := ⟨df.length - 1, by omega⟩
      have hm9 : 9 ≤ m := by omega
      have hcons : (List.range df.length).map (pctChangeAt (df.map (fun r => r.close)))
          = none :: (List.range m).map
              (fun j => pctChangeAt (df.map (fun r => r.close)) (j + 1)) := by
        rw [hm, List.range_succ_eq_map, List.map_cons, List.map_map]
        rfl
      rw [hcons]
      simp
    · rw [if_neg h9]
  · exact getD_replicate_none _ _

/-- Presence of the volatility column: exactly from index 10 on (10
returns exist first at point 10, the return at index 0 being absent). -/
theorem volatility_isSome (df : List HRow) {i : Nat} (hi : i < df.length) :
    (((addBasicIndicators df).getD i default).volatility_10d_sq).isSome = true
      ↔ 10 ≤ i := by
  constructor
  · intro h
    by_contra hlt
    push_neg at hlt
    rw [addBasicIndicators_getD df hi] at h
    simp only [] at h
    rw [volatility_none_of_lt df hi hlt] at h
    simp at h
  · intro h10
    rw [volatility_value df hi h10]
    rfl

/-- C5: the 10-day volatility is absent until 10 daily returns exist
(index 10 is the first point with volatility) and from then on equals the
sample standard deviation of the trailing 10 daily-return values, the
daily return at `t` being `(close[t] − close[t−1]) / close[t−1] × 100`
(absent at the first point); in particular at point 10 it covers the
returns at points 1 through 10.  The stored column carries `std²` exactly
(see `ERow.volatility_10d_sq`); the standard deviation is its square
root. -/
theorem volatility_spec (df : List HRow) (i : Nat) (hi : i < df.length) :
    ((((addBasicIndicators df).getD i default).volatility_10d_sq).isSome = true
       ↔ 10 ≤ i) ∧
    (10 ≤ i →
      (((addBasicIndicators df).getD i default).volatility_10d_sq).map
          (fun q => Real.sqrt (q : ℝ))
        = some (sampleStd ((List.range 10).map (fun j =>
            dailyReturnVal (df.map (fun r => r.close)) (i - 9 + j))))) :=
  ⟨volatility_isSome df hi, fun h10 => by rw [volatility_value df hi h10]; rfl⟩

/-- Witness for C5: a 15-point series at point 10, whose trailing window is
the returns at points 1 through 10. -/
theorem volatility_spec_witness :
    10 < (List.replicate 15 (default : HRow)).length ∧
    (((((addBasicIndicators (List.replicate 15 (default : HRow))).getD 10 default).volatility_10d_sq).isSome = true
        ↔ 10 ≤ 10) ∧
     (10 ≤ 10 →
       (((addBasicIndicators (List.replicate 15 (default : HRow))).getD 10 default).volatility_10d_sq).map
           (fun q => Real.sqrt (q : ℝ))
         = some (sampleStd ((List.range 10).map (fun j =>
             dailyReturnVal ((List.replicate 15 (default : HRow)).map (fun r => r.close))
               (10 - 9 + j)))))) :=
  ⟨by simp, volatility_spec (List.replicate 15 default) 10 (by simp)⟩

end DataCraw
